import Mathlib

/-!
Verification of the multi-source literature retrieval, deduplication, ranking and
evaluation pipeline of the literature-tracing tool.

The definitions below are a shallow embedding of the TypeScript sources:
* `DeduplicationService` (key generation, `deduplicate`, `mergeAndDeduplicate`,
  completeness scoring, `sortByRelevanceAndQuality`),
* `EvaluationService.evaluateLiterature` / `getFallbackEvaluation`,
* the search route's per-record evaluation batch and Crossref enrichment step,
* `convertExaResultToLiterature`'s author-field splitting.

JavaScript numbers are modelled as rationals, extended with `nan` and `ninf`
markers where `Math.log10` can produce non-finite values.  JavaScript truthiness
on optional strings/numbers (empty string and zero are falsy) is made explicit
via `strT` / `numT`.  `Math.log10` on positive arguments is modelled by an
arbitrary rational-valued parameter `approx`; only its sign conventions
(negative argument ↦ NaN, zero ↦ -∞) are fixed, which is all the code's
clamping behaviour depends on.
-/

namespace LitTrace

/-- Model of a JavaScript number as it flows through the fallback evaluator:
either finite (a rational), negative infinity (from `Math.log10(0)`), or NaN
(from `Math.log10` of a negative argument). -/
inductive JSNum where
  | nan : JSNum
  | ninf : JSNum
  | fin : ℚ → JSNum
deriving DecidableEq

/-- JS `Math.min` of two model numbers: NaN-propagating, `-∞` absorbing. -/
def jsMin : JSNum → JSNum → JSNum
  | .nan, _ => .nan
  | _, .nan => .nan
  | .ninf, _ => .ninf
  | _, .ninf => .ninf
  | .fin a, .fin b => .fin (min a b)

/-- JS `Math.max` of two model numbers: NaN-propagating, `-∞` neutral. -/
def jsMax : JSNum → JSNum → JSNum
  | .nan, _ => .nan
  | _, .nan => .nan
  | .ninf, b => b
  | a, .ninf => a
  | .fin a, .fin b => .fin (max a b)

/-- JS addition on model numbers (no `+∞` arises in the embedded code). -/
def jsAdd : JSNum → JSNum → JSNum
  | .nan, _ => .nan
  | _, .nan => .nan
  | .ninf, _ => .ninf
  | _, .ninf => .ninf
  | .fin a, .fin b => .fin (a + b)

/-- JS multiplication by 2 on model numbers. -/
def jsDouble : JSNum → JSNum
  | .nan => .nan
  | .ninf => .ninf
  | .fin a => .fin (2 * a)

/-- JS division by 2 on model numbers. -/
def jsHalf : JSNum → JSNum
  | .nan => .nan
  | .ninf => .ninf
  | .fin a => .fin (a / 2)

/-- Model of JS `Math.log10`: NaN on negative arguments, `-∞` at zero, and an
unspecified finite value (supplied by the `approx` parameter) on positive
arguments.  The embedded code never depends on the finite values. -/
def mathLog10 (approx : ℚ → ℚ) (q : ℚ) : JSNum :=
  if q < 0 then .nan else if q = 0 then .ninf else .fin (approx q)

/-- JS truthiness of an optional string (`undefined` and `""` are falsy). -/
def strT : Option String → Bool
  | none => false
  | some s => s ≠ ""

/-- JS truthiness of an optional number (`undefined` and `0` are falsy). -/
def numT : Option ℚ → Bool
  | none => false
  | some q => q ≠ 0

/-- JS `a || b` on optional strings. -/
def jsOrStr (a b : Option String) : Option String :=
  if strT a then a else b

/-- JS `a || b` on optional numbers. -/
def jsOrNum (a b : Option ℚ) : Option ℚ :=
  if numT a then a else b

/-- JS `a || 0` on an optional number. -/
def numOr0 : Option ℚ → ℚ
  | none => 0
  | some q => q

/-- One scored rubric entry of an LLM evaluation (`{score, reason}`). -/
structure ScoreReason where
  score : JSNum
  reason : String
deriving DecidableEq

/-- The `LiteratureEvaluation` rubric produced by the evaluation service. -/
structure Evaluation where
  relevance : ScoreReason
  credibility : ScoreReason
  impact : ScoreReason
  advantages : List String
  limitations : List String
deriving DecidableEq

/-- The route's `Literature` record (zod schema `LiteratureSchema`). -/
structure Literature where
  id : ℤ
  title : String
  authors : List String
  journal : String
  year : ℤ
  doi : String
  verified : Bool
  supportingPages : Option ℚ := none
  abstract : Option String := none
  impactFactor : Option ℚ := none
  citationCount : Option ℚ := none
  evaluation : Option Evaluation := none
deriving DecidableEq

/-- JS `\w` character class (ASCII word characters). -/
def isWordChar (c : Char) : Bool :=
  c.isAlpha || c.isDigit || c = '_'

/-- JS `\s` character class, modelled by Lean's whitespace predicate. -/
def isSpaceChar (c : Char) : Bool :=
  c.isWhitespace

/-- JS `String.prototype.trim`, over the character list (kernel-reducible
counterpart of `String.trim`). -/
def jsTrim (s : String) : String :=
  ((s.data.dropWhile isSpaceChar).reverse.dropWhile isSpaceChar).reverse.asString

/-- JS `String.prototype.toLowerCase`, over the character list. -/
def jsToLower (s : String) : String :=
  (s.data.map Char.toLower).asString

/-- The step `replace(/[^\w\s]/g, '')`: drop every character that is neither a word
character nor whitespace. -/
def removePunct (s : String) : String :=
  (s.data.filter fun c => isWordChar c || isSpaceChar c).asString

/-- The step `replace(/\s+/g, ' ')`: collapse every maximal whitespace run to a single
space. -/
def collapseWs : List Char → List Char
  | [] => []
  | [c] => [if isSpaceChar c then ' ' else c]
  | c1 :: c2 :: cs =>
    if isSpaceChar c1 && isSpaceChar c2 then collapseWs (c2 :: cs)
    else (if isSpaceChar c1 then ' ' else c1) :: collapseWs (c2 :: cs)

/-- Embedding of `DeduplicationService.normalizeTitle`: lowercase, strip punctuation,
collapse whitespace, trim. -/
def normalizeTitle (title : String) : String :=
  ((collapseWs (removePunct (jsToLower title)).data).asString) |> jsTrim

/-- The first-author component of the title-based key:
`(literature.authors[0] || 'unknown').toLowerCase().replace(/[^\w\s]/g, '').trim()`. -/
def normalizedFirstAuthor (lit : Literature) : String :=
  let firstAuthor :=
    match lit.authors.head? with
    | some a => if a ≠ "" then a else "unknown"
    | none => "unknown"
  jsTrim (removePunct (jsToLower firstAuthor))

/-- The guard of the DOI branch of `generateKey`:
`literature.doi && literature.doi !== 'N/A' && literature.doi.trim() !== ''`. -/
def usableDoi (lit : Literature) : Bool :=
  lit.doi ≠ "" && lit.doi ≠ "N/A" && jsTrim lit.doi ≠ ""

/-- Embedding of `DeduplicationService.generateKey`: DOI key when a usable DOI is present,
else the `title|author|year` combination key. -/
def generateKey (lit : Literature) : String :=
  if usableDoi lit then "doi:" ++ jsTrim (jsToLower lit.doi)
  else
    "title:" ++ normalizeTitle lit.title ++ "|author:" ++ normalizedFirstAuthor lit
      ++ "|year:" ++ toString lit.year

/-- The loop of `DeduplicationService.deduplicate`, with the `seenKeys` set
modelled as a list of keys. -/
def dedupGo (seen : List String) : List Literature → List Literature
  | [] => []
  | lit :: rest =>
    if generateKey lit ∈ seen then dedupGo seen rest
    else lit :: dedupGo (generateKey lit :: seen) rest

/-- Embedding of `DeduplicationService.deduplicate`: first-seen-wins key-based filtering. -/
def deduplicate (l : List Literature) : List Literature :=
  dedupGo [] l

/-- Embedding of `DeduplicationService.calculateCompletenessScore`. -/
def calculateCompletenessScore (lit : Literature) : ℕ :=
  (if lit.doi ≠ "" && lit.doi ≠ "N/A" then 3 else 0) +
  (if strT lit.abstract then 2 else 0) +
  (if numT lit.citationCount then 1 else 0) +
  (if numT lit.impactFactor then 1 else 0) +
  (if 1 < lit.authors.length then 1 else 0) +
  (if lit.journal ≠ "" && lit.journal ≠ "Unknown Journal" then 1 else 0)

/-- Embedding of `DeduplicationService.mergeLiteratureItems`: a verified record wins over an
unverified one (adopting the abstract when its own is absent); on a tie of
verification status the record with the higher completeness score is the base,
backfilling falsy `abstract`, `citationCount`, `impactFactor` and
`supportingPages` from the other. -/
def mergeLiteratureItems (item1 item2 : Literature) : Literature :=
  if item1.verified && !item2.verified then
    { item1 with abstract := jsOrStr item1.abstract item2.abstract }
  else if item2.verified && !item1.verified then
    { item2 with abstract := jsOrStr item2.abstract item1.abstract }
  else
    let item1Score := calculateCompletenessScore item1
    let item2Score := calculateCompletenessScore item2
    let preferred := if item2Score ≤ item1Score then item1 else item2
    let other := if item2Score ≤ item1Score then item2 else item1
    { preferred with
      abstract := jsOrStr preferred.abstract other.abstract,
      citationCount := jsOrNum preferred.citationCount other.citationCount,
      impactFactor := jsOrNum preferred.impactFactor other.impactFactor,
      supportingPages := jsOrNum preferred.supportingPages other.supportingPages }

/-- Lookup in an insertion-ordered association list (JS `Map.get`). -/
def mapGet (m : List (String × Literature)) (k : String) : Option Literature :=
  match m with
  | [] => none
  | (k', v) :: rest => if k' = k then some v else mapGet rest k

/-- Update in an insertion-ordered association list (JS `Map.set`): an existing
key keeps its position, a new key is appended. -/
def mapSet (m : List (String × Literature)) (k : String) (v : Literature) :
    List (String × Literature) :=
  match m with
  | [] => [(k, v)]
  | (k', v') :: rest =>
    if k' = k then (k, v) :: rest else (k', v') :: mapSet rest k v

/-- Embedding of `DeduplicationService.mergeAndDeduplicate`: fold the input into a
key-indexed map, merging on key collisions, then list the values in insertion
order (JS `Map` iteration order). -/
def mergeAndDeduplicate (l : List Literature) : List Literature :=
  (l.foldl
    (fun m lit =>
      let key := generateKey lit
      match mapGet m key with
      | none => mapSet m key lit
      | some existing => mapSet m key (mergeLiteratureItems existing lit))
    []).map Prod.snd

/-- The comparator of `DeduplicationService.sortByRelevanceAndQuality`
(its numeric return value, as a rational). -/
def jsCmp (a b : Literature) : ℚ :=
  if a.verified ≠ b.verified then (if a.verified then -1 else 1)
  else if numOr0 a.citationCount ≠ numOr0 b.citationCount then
    numOr0 b.citationCount - numOr0 a.citationCount
  else if numOr0 a.impactFactor ≠ numOr0 b.impactFactor then
    numOr0 b.impactFactor - numOr0 a.impactFactor
  else if a.year ≠ b.year then ((b.year - a.year : ℤ) : ℚ)
  else (calculateCompletenessScore b : ℚ) - (calculateCompletenessScore a : ℚ)

/-- The non-strict order induced by the comparator (`jsCmp a b <= 0` means the
comparator does not require `a` after `b`). -/
def jsLe (a b : Literature) : Bool :=
  decide (jsCmp a b ≤ 0)

/-- Embedding of `DeduplicationService.sortByRelevanceAndQuality`.  ECMAScript requires
`Array.prototype.sort` to be stable, so it is modelled by a stable merge
sort with the comparator-induced order. -/
def sortByRelevanceAndQuality (l : List Literature) : List Literature :=
  l.mergeSort jsLe

/-- The `EvaluationRequest` passed to `EvaluationService.evaluateLiterature`. -/
structure EvaluationRequest where
  query : String
  title : String
  authors : List String
  journal : String
  year : ℤ
  abstract : Option String := none
  doi : Option String := none
  citationCount : Option ℚ := none
  impactFactor : Option ℚ := none
deriving DecidableEq

/-- Embedding of `EvaluationService.getFallbackEvaluation`.  Here `approx` models the finite
values of `Math.log10`, `rand` the `Math.random()` draw, `currentYear` the
value of `new Date().getFullYear()`. -/
def getFallbackEvaluation (approx : ℚ → ℚ) (rand : ℚ) (currentYear : ℤ)
    (request : EvaluationRequest) : Evaluation :=
  let yearScore : ℚ := max 0 (10 - ((currentYear : ℚ) - (request.year : ℚ)) * (1 / 2))
  let citationScore : JSNum :=
    if numT request.citationCount then
      jsMin (.fin 10) (jsDouble (mathLog10 approx (numOr0 request.citationCount + 1)))
    else .fin 5
  let impactScore : ℚ :=
    if numT request.impactFactor then min 10 (numOr0 request.impactFactor * 2) else 5
  { relevance :=
      { score := .fin (min 10 (max 1 (7 + rand * 2))),
        reason := "Literature appears relevant to the query \"" ++ request.query ++
          "\" based on title and journal context." },
    credibility :=
      { score := jsMin (.fin 10) (jsMax (.fin 1) (jsHalf (jsAdd (.fin yearScore) citationScore))),
        reason := "Credibility assessed based on publication year (" ++ toString request.year ++
          ") and citation metrics." },
    impact :=
      { score := .fin (min 10 (max 1 impactScore)),
        reason := "Impact score derived from journal impact factor and citation count." },
    advantages :=
      ["Published in peer-reviewed journal", "Relevant to research query",
       "Available metadata for assessment"],
    limitations :=
      ["Automated evaluation without full text analysis",
       "Limited context for comprehensive assessment"] }

/-- Outcome of the OpenRouter `fetch` in `evaluateLiterature`: either the call
throws (network error or 20-second abort), or it returns a response with an
`ok` flag and the optional `data.choices?.[0]?.message?.content`. -/
inductive FetchOutcome where
  | throws : FetchOutcome
  | response : Bool → Option String → FetchOutcome
deriving DecidableEq

/-- Embedding of `EvaluationService.evaluateLiterature`.  Here `parse` models the content
cleaning plus `JSON.parse` plus zod validation pipeline (the wire format is
outside the embedding); `none` means that pipeline threw.  Every failure mode
falls back to `getFallbackEvaluation`. -/
def evaluateLiterature (parse : String → Option Evaluation) (approx : ℚ → ℚ)
    (rand : ℚ) (currentYear : ℤ) (apiKey : String) (outcome : FetchOutcome)
    (request : EvaluationRequest) : Evaluation :=
  let fallback := getFallbackEvaluation approx rand currentYear request
  if apiKey = "" then fallback
  else
    match outcome with
    | .throws => fallback
    | .response ok content =>
      if !ok then fallback
      else
        match content with
        | none => fallback
        | some c =>
          if c = "" then fallback
          else
            match parse c with
            | some evaluation => evaluation
            | none => fallback

/-- Outcome of one record's `evaluateLiterature` promise inside the route's
per-sentence evaluation batch: fulfilled with an evaluation, or rejected. -/
inductive EvalOutcome where
  | ok : Evaluation → EvalOutcome
  | throws : EvalOutcome
deriving DecidableEq

/-- The route's per-sentence evaluation loop (step 2.1 of the search route):
each deduplicated record is evaluated inside its own try/catch; on success the
evaluation is attached, on failure the record is returned unchanged. -/
def evaluateSentenceBatch (evalOf : Literature → EvalOutcome)
    (lits : List Literature) : List Literature :=
  lits.map fun lit =>
    match evalOf lit with
    | .ok e => { lit with evaluation := some e }
    | .throws => lit

/-- Forget the evaluation attached to a record (for stating that the batch
step changes nothing but the evaluation field). -/
def stripEval (lit : Literature) : Literature :=
  { lit with evaluation := none }

/-- A Crossref work as consumed by the route's enhancement step. -/
structure CrossrefWork where
  author : Option (List (Option String × Option String)) := none
  containerTitle : Option (List String) := none
  abstract : Option String := none
  doi : Option String := none
  publishedFirst : Option ℤ := none
  isReferencedByCount : Option ℚ := none
deriving DecidableEq

/-- Crossref author formatting in the enhancement step:
the interpolation of `a.given || ""` and `a.family || ""`, trimmed. -/
def formatCrossrefAuthor (a : Option String × Option String) : String :=
  jsTrim (a.1.getD "" ++ " " ++ a.2.getD "")

/-- The route's `needsEnhancement` test: missing or placeholder authors,
falsy or "Unknown" journal, falsy doi, or falsy abstract. -/
def needsEnhancement (lit : Literature) : Bool :=
  (lit.authors.isEmpty || lit.authors.contains "Unknown Author") ||
  lit.journal = "" || lit.journal = "Unknown" || lit.doi = "" || !strT lit.abstract

/-- JS `a || b || a` on optional numbers, as in
`lit.citationCount || crossrefWork["is-referenced-by-count"] || lit.citationCount`. -/
def jsOrNum3 (a b : Option ℚ) : Option ℚ :=
  if numT a then a else if numT b then b else a

/-- Merging one Crossref work into a record in the enhancement step.  The DOI
lookup branch does not touch `doi` (`updateDoi = false`); the bibliographic
branch backfills a falsy `doi` (`updateDoi = true`).  `dateYear` models
`new Date(n).getFullYear()`. -/
def enhanceWithWork (dateYear : ℤ → ℤ) (updateDoi : Bool) (lit : Literature)
    (w : CrossrefWork) : Literature :=
  { lit with
    authors :=
      if !lit.authors.isEmpty && !lit.authors.contains "Unknown Author" then lit.authors
      else
        match w.author with
        | some l => l.map formatCrossrefAuthor
        | none => lit.authors,
    journal :=
      if lit.journal ≠ "" && lit.journal ≠ "Unknown" then lit.journal
      else
        match w.containerTitle with
        | some l =>
          match l.head? with
          | some t => if t ≠ "" then t else lit.journal
          | none => lit.journal
        | none => lit.journal,
    abstract := jsOrStr lit.abstract (jsOrStr w.abstract lit.abstract),
    doi :=
      if updateDoi then
        (if lit.doi ≠ "" then lit.doi
         else
           match w.doi with
           | some d => if d ≠ "" then d else lit.doi
           | none => lit.doi)
      else lit.doi,
    year :=
      if lit.year ≠ 0 then lit.year
      else
        dateYear
          (match w.publishedFirst with
           | some y => if y ≠ 0 then y else lit.year
           | none => lit.year),
    citationCount := jsOrNum3 lit.citationCount w.isReferencedByCount }

/-- The route's per-record Crossref enhancement step (step 3 of the search
route).  `doiLookup` models `getWorksByDois([lit.doi])` and `bibLookup` models
`searchByBibliographic(lit.title)`; `Except.error` means the call threw, in
which case the surrounding catch returns the record unchanged. -/
def enhanceLiterature (dateYear : ℤ → ℤ)
    (doiLookup : String → Except Unit (Option CrossrefWork))
    (bibLookup : String → Except Unit (Option CrossrefWork))
    (lit : Literature) : Literature :=
  if !needsEnhancement lit then lit
  else
    if lit.doi ≠ "" && lit.doi.data.take 3 = "10.".data then
      match doiLookup lit.doi with
      | .error _ => lit
      | .ok (some w) => enhanceWithWork dateYear false lit w
      | .ok none =>
        match bibLookup lit.title with
        | .error _ => lit
        | .ok (some w) => enhanceWithWork dateYear true lit w
        | .ok none => lit
    else
      match bibLookup lit.title with
      | .error _ => lit
      | .ok (some w) => enhanceWithWork dateYear true lit w
      | .ok none => lit

/-- Test for a fragment consisting purely of digits (`/^\d+$/`). -/
def isDigitFrag (s : String) : Bool :=
  !s.isEmpty && s.data.all Char.isDigit

/-- The author-fragment filter of `convertExaResultToLiterature`:
keep fragments that are non-empty and not purely numeric. -/
def keepFrag (s : String) : Bool :=
  0 < s.length && !isDigitFrag s

/-- Attempt to match the `\s+and\s+` alternative of the split regex at the
start of `cs` (whose head is known to be whitespace): greedy whitespace run,
then case-insensitive `and`, then at least one whitespace (greedily consumed).
Returns the remainder after the match. -/
def matchAndSep (cs : List Char) : Option (List Char) :=
  match cs.dropWhile isSpaceChar with
  | a :: n :: d :: rest =>
    if a.toLower = 'a' && n.toLower = 'n' && d.toLower = 'd' then
      match rest with
      | c :: _ => if isSpaceChar c then some (rest.dropWhile isSpaceChar) else none
      | [] => none
    else none
  | _ => none

/-- The split on `/[,;]|\s+and\s+/i`: scan left to right, cutting at each
separator match.  `fuel` bounds the scan; `splitAuthorString` supplies more
fuel than characters, so the exhaustion branch is unreachable. -/
def splitScan : ℕ → List Char → List Char → List String
  | _, [], cur => [cur.reverse.asString]
  | 0, cs, cur => [(cur.reverse ++ cs).asString]
  | fuel + 1, c :: cs, cur =>
    if c = ',' || c = ';' then cur.reverse.asString :: splitScan fuel cs []
    else if isSpaceChar c then
      match matchAndSep (c :: cs) with
      | some rest => cur.reverse.asString :: splitScan fuel rest []
      | none => splitScan fuel cs (c :: cur)
    else splitScan fuel cs (c :: cur)

/-- Embedding of `authorStr.split(/[,;]|\s+and\s+/i)`. -/
def splitAuthorString (s : String) : List String :=
  splitScan (s.data.length + 1) s.data []

/-- Contiguous-subsequence test on character lists (JS `String.includes`). -/
def containsSeq (needle : List Char) : List Char → Bool
  | [] => needle.isPrefixOf []
  | c :: cs => needle.isPrefixOf (c :: cs) || containsSeq needle cs

/-- The separator test of `convertExaResultToLiterature`:
`authorStr.includes(',') || authorStr.includes(';') || authorStr.includes(' and ')`. -/
def hasSep (s : String) : Bool :=
  s.data.contains ',' || s.data.contains ';' || containsSeq " and ".data s.data

/-- The author-field processing of `convertExaResultToLiterature`: an absent or
blank author field yields the placeholder; a field containing a separator is
split, trimmed and filtered; otherwise the trimmed field is the only author. -/
def exaAuthors (author : Option String) : List String :=
  match author with
  | none => ["Unknown Author"]
  | some s =>
    if jsTrim s = "" then ["Unknown Author"]
    else
      let authorStr := jsTrim s
      if hasSep authorStr then
        ((splitAuthorString authorStr).map jsTrim).filter keepFrag
      else [authorStr]

/-- The five-tier sort key underlying the comparator: verified flag (0 before
1), then negated citation count, impact factor, year and completeness score,
compared lexicographically.  `jsCmp a b ≤ 0` iff `sortKey a ≤ sortKey b`. -/
def sortKey (a : Literature) : ℕ ×ₗ (ℚ ×ₗ (ℚ ×ₗ (ℤ ×ₗ ℚ))) :=
  toLex ((if a.verified then 0 else 1 : ℕ),
    toLex (-(numOr0 a.citationCount),
      toLex (-(numOr0 a.impactFactor),
        toLex (-a.year, -((calculateCompletenessScore a : ℚ))))))

/-! Concrete sample records used by counterexamples and witnesses. -/

/-- A verified record without a citation count (DOI `10.1/x`). -/
def smpVerified : Literature :=
  { id := 1, title := "t", authors := ["A"], journal := "J", year := 2020,
    doi := "10.1/x", verified := true }

/-- An unverified duplicate of `smpVerified` carrying a citation count. -/
def smpUnverified : Literature :=
  { id := 2, title := "t", authors := ["A"], journal := "J", year := 2020,
    doi := "10.1/x", verified := false, citationCount := some 42 }

/-- A record identified by DOI. -/
def smpDoiRec : Literature :=
  { id := 3, title := "t", authors := ["A"], journal := "J", year := 2020,
    doi := "10.1/x", verified := false }

/-- The same publication as `smpDoiRec` (same title, first author and year)
but with the "N/A" identifier sentinel. -/
def smpNaRec : Literature :=
  { id := 4, title := "t", authors := ["A"], journal := "J", year := 2020,
    doi := "N/A", verified := false }

/-- A degenerate record: "N/A" identifier, no authors. -/
def smpDegenerate : Literature :=
  { id := 5, title := "A Title", authors := [], journal := "J", year := 2020,
    doi := "N/A", verified := false }

/-- A second degenerate record with the same normalized title and year. -/
def smpDegenerate2 : Literature :=
  { id := 6, title := "  a title!  ", authors := [], journal := "K", year := 2020,
    doi := "", verified := true }

/-- A record with a present-but-zero citation count and a missing abstract
(so the enhancement step fires). -/
def smpZeroCite : Literature :=
  { id := 7, title := "t", authors := ["A", "B"], journal := "J", year := 2020,
    doi := "10.1/x", verified := false, citationCount := some 0 }

/-- A Crossref work carrying only a referenced-by count. -/
def smpWork : CrossrefWork :=
  { isReferencedByCount := some 7 }

/-- A plain evaluation request (no citation count or impact factor). -/
def smpEvalReq : EvaluationRequest :=
  { query := "q", title := "t", authors := [], journal := "j", year := 2025 }

/-- An evaluation request with the invalid citation count `-5`. -/
def smpNegCitationReq : EvaluationRequest :=
  { query := "q", title := "t", authors := [], journal := "j", year := 2025,
    citationCount := some (-5) }

/-! Supporting lemmas. -/

/-- The deduplication loop is idempotent for any starting key set. -/
theorem dedupGo_idem (l : List Literature) :
    ∀ seen, dedupGo seen (dedupGo seen l) = dedupGo seen l := by
  induction l with
  | nil => intro seen; rfl
  | cons x xs ih =>
    intro seen
    by_cases h : generateKey x ∈ seen
    · simp [dedupGo, h, ih seen]
    · simp [dedupGo, h, ih (generateKey x :: seen)]

/-- Two records sharing a key collapse to the first under `deduplicate`. -/
theorem deduplicate_pair_same_key {a b : Literature}
    (h : generateKey a = generateKey b) : deduplicate [a, b] = [a] := by
  simp [deduplicate, dedupGo, h]

/-- Two records sharing a key merge into a single record under
`mergeAndDeduplicate`. -/
theorem mergeAndDeduplicate_pair {a b : Literature}
    (h : generateKey a = generateKey b) :
    mergeAndDeduplicate [a, b] = [mergeLiteratureItems a b] := by
  simp [mergeAndDeduplicate, mapGet, mapSet, ← h]

/-- Records agreeing on the usable DOI (after lowercasing and trimming) share
a canonical key. -/
theorem key_eq_of_doi {a b : Literature} (ha : usableDoi a = true)
    (hb : usableDoi b = true)
    (hdoi : jsTrim (jsToLower a.doi) = jsTrim (jsToLower b.doi)) :
    generateKey a = generateKey b := by
  simp [generateKey, ha, hb, hdoi]

/-- Records without usable DOIs that agree on normalized title, normalized
first author and year share a canonical key. -/
theorem key_eq_of_title {a b : Literature} (ha : usableDoi a = false)
    (hb : usableDoi b = false)
    (ht : normalizeTitle a.title = normalizeTitle b.title)
    (hauth : normalizedFirstAuthor a = normalizedFirstAuthor b)
    (hy : a.year = b.year) :
    generateKey a = generateKey b := by
  simp [generateKey, ha, hb, ht, hauth, hy]

/-- The comparator agrees with the lexicographic order on sort keys. -/
theorem jsCmp_le_iff (a b : Literature) : jsCmp a b ≤ 0 ↔ sortKey a ≤ sortKey b := by
  unfold jsCmp sortKey
  by_cases hv : a.verified = b.verified
  · rw [hv]
    simp only [ne_eq, not_true_eq_false, Bool.false_eq_true, if_false, Prod.Lex.le_iff,
      lt_self_iff_false, false_or, eq_self_iff_true, true_and]
    by_cases hc : numOr0 a.citationCount = numOr0 b.citationCount
    · rw [if_neg (not_not_intro hc), hc]
      simp only [lt_self_iff_false, false_or, eq_self_iff_true, true_and]
      by_cases hi : numOr0 a.impactFactor = numOr0 b.impactFactor
      · rw [if_neg (not_not_intro hi), hi]
        simp only [lt_self_iff_false, false_or, eq_self_iff_true, true_and]
        by_cases hy : a.year = b.year
        · rw [if_neg (not_not_intro hy), hy]
          simp only [lt_self_iff_false, false_or, eq_self_iff_true, true_and]
          constructor
          · intro h; linarith
          · intro h; linarith
        · rw [if_pos hy]
          constructor
          · intro h
            have hq : (b.year : ℚ) - (a.year : ℚ) ≤ 0 := by push_cast at h; linarith
            have hz : b.year ≤ a.year := by
              have : (b.year : ℚ) ≤ (a.year : ℚ) := by linarith
              exact_mod_cast this
            exact Or.inl (by omega)
          · rintro (h | ⟨he, -⟩)
            · show ((b.year - a.year : ℤ) : ℚ) ≤ 0
              have hz : (b.year - a.year : ℤ) ≤ 0 := by omega
              exact_mod_cast hz
            · exact absurd (by omega : a.year = b.year) hy
      · rw [if_pos hi]
        constructor
        · intro h
          exact Or.inl (neg_lt_neg_iff.mpr (lt_of_le_of_ne (by linarith) (Ne.symm hi)))
        · rintro (h | ⟨he, -⟩)
          · have := neg_lt_neg_iff.mp h; linarith
          · exact absurd (neg_inj.mp he) hi
    · rw [if_pos hc]
      constructor
      · intro h
        exact Or.inl (neg_lt_neg_iff.mpr (lt_of_le_of_ne (by linarith) (Ne.symm hc)))
      · rintro (h | ⟨he, -⟩)
        · have := neg_lt_neg_iff.mp h; linarith
        · exact absurd (neg_inj.mp he) hc
  · rcases hva : a.verified <;> rcases hvb : b.verified <;>
      first
        | exact absurd (hva.trans hvb.symm) hv
        | norm_num [Prod.Lex.le_iff]

/-- The comparator-induced order is transitive. -/
theorem jsLe_trans (a b c : Literature) :
    jsLe a b = true → jsLe b c = true → jsLe a c = true := by
  simp only [jsLe, decide_eq_true_iff, jsCmp_le_iff]
  exact le_trans

/-- The comparator-induced order is total. -/
theorem jsLe_total (a b : Literature) : (jsLe a b || jsLe b a) = true := by
  simp only [jsLe, Bool.or_eq_true, decide_eq_true_iff, jsCmp_le_iff]
  exact le_total (sortKey a) (sortKey b)

/-- A record the comparator does not place strictly later than a verified
record is itself verified. -/
theorem verified_of_jsCmp_le {x y : Literature} (h : jsCmp x y ≤ 0)
    (hy : y.verified = true) : x.verified = true := by
  rcases hx : x.verified
  · unfold jsCmp at h
    rw [hx, hy] at h
    norm_num at h
  · rfl

/-- The function `enhanceLiterature` returns either the record unchanged or the result of
merging one Crossref work into it. -/
theorem enhance_result_cases (dateYear : ℤ → ℤ)
    (dl bl : String → Except Unit (Option CrossrefWork)) (lit : Literature) :
    enhanceLiterature dateYear dl bl lit = lit
    ∨ ∃ u w, enhanceLiterature dateYear dl bl lit = enhanceWithWork dateYear u lit w := by
  unfold enhanceLiterature
  by_cases hn : needsEnhancement lit
  · simp only [hn, Bool.not_true, Bool.false_eq_true, if_false]
    by_cases hd : (lit.doi ≠ "" && lit.doi.data.take 3 = "10.".data : Bool) = true
    · rw [if_pos hd]
      rcases dl lit.doi with e | w
      · exact Or.inl rfl
      · rcases w with _ | w
        · rcases bl lit.title with e | w'
          · exact Or.inl rfl
          · rcases w' with _ | w'
            · exact Or.inl rfl
            · exact Or.inr ⟨true, w', rfl⟩
        · exact Or.inr ⟨false, w, rfl⟩
    · rw [if_neg hd]
      rcases bl lit.title with e | w
      · exact Or.inl rfl
      · rcases w with _ | w
        · exact Or.inl rfl
        · exact Or.inr ⟨true, w, rfl⟩
  · simp [hn]

/-- When every Crossref lookup throws, the enhancement step returns the record
unchanged. -/
theorem enhance_error_unchanged (dateYear : ℤ → ℤ)
    (dl bl : String → Except Unit (Option CrossrefWork)) (lit : Literature)
    (hdl : dl lit.doi = .error ()) (hbl : bl lit.title = .error ()) :
    enhanceLiterature dateYear dl bl lit = lit := by
  unfold enhanceLiterature
  by_cases hn : needsEnhancement lit
  · simp only [hn, Bool.not_true, Bool.false_eq_true, if_false]
    by_cases hd : (lit.doi ≠ "" && lit.doi.data.take 3 = "10.".data : Bool) = true
    · rw [if_pos hd, hdl]
    · rw [if_neg hd, hbl]
  · simp [hn]

/-- Merging a Crossref work preserves every field that is JS-truthy and
non-placeholder on the record, and never touches id, title, verified,
supportingPages, impactFactor or the attached evaluation. -/
theorem enhanceWithWork_preserves (dateYear : ℤ → ℤ) (u : Bool) (lit : Literature)
    (w : CrossrefWork) :
    (enhanceWithWork dateYear u lit w).id = lit.id
    ∧ (enhanceWithWork dateYear u lit w).title = lit.title
    ∧ (enhanceWithWork dateYear u lit w).verified = lit.verified
    ∧ (enhanceWithWork dateYear u lit w).supportingPages = lit.supportingPages
    ∧ (enhanceWithWork dateYear u lit w).impactFactor = lit.impactFactor
    ∧ (enhanceWithWork dateYear u lit w).evaluation = lit.evaluation
    ∧ (lit.authors ≠ [] → lit.authors.contains "Unknown Author" = false →
        (enhanceWithWork dateYear u lit w).authors = lit.authors)
    ∧ (lit.journal ≠ "" → lit.journal ≠ "Unknown" →
        (enhanceWithWork dateYear u lit w).journal = lit.journal)
    ∧ (strT lit.abstract = true → (enhanceWithWork dateYear u lit w).abstract = lit.abstract)
    ∧ (lit.doi ≠ "" → (enhanceWithWork dateYear u lit w).doi = lit.doi)
    ∧ (lit.year ≠ 0 → (enhanceWithWork dateYear u lit w).year = lit.year)
    ∧ (numT lit.citationCount = true →
        (enhanceWithWork dateYear u lit w).citationCount = lit.citationCount) := by
  refine ⟨rfl, rfl, rfl, rfl, rfl, rfl, ?_, ?_, ?_, ?_, ?_, ?_⟩
  · intro h1 h2
    have he : lit.authors.isEmpty = false := by
      cases hl : lit.authors with
      | nil => exact absurd hl h1
      | cons x xs => rfl
    have h2' : "Unknown Author" ∉ lit.authors := by simpa using h2
    simp [enhanceWithWork, he, h2']
  · intro h1 h2
    simp [enhanceWithWork, h1, h2]
  · intro h
    simp [enhanceWithWork, jsOrStr, h]
  · intro h
    cases u <;> simp [enhanceWithWork, h]
  · intro h
    simp [enhanceWithWork, h]
  · intro h
    simp [enhanceWithWork, jsOrNum3, h]

/-! Claim theorems. -/

/-- C2: `sortByRelevanceAndQuality` permutes its input into comparator order
(verified first, then citation count, impact factor, year descending, then
completeness score), is stable (records equal under all five tiers keep their
relative input order), and every verified record precedes every unverified
one. -/
theorem C2_sort_by_quality_spec (l : List Literature) :
    (sortByRelevanceAndQuality l).Perm l
    ∧ (sortByRelevanceAndQuality l).Pairwise (fun x y => jsCmp x y ≤ 0)
    ∧ (∀ x y, jsCmp x y = 0 → [x, y].Sublist l →
        [x, y].Sublist (sortByRelevanceAndQuality l))
    ∧ (sortByRelevanceAndQuality l).Pairwise
        (fun x y => y.verified = true → x.verified = true) := by
  have hsorted : (sortByRelevanceAndQuality l).Pairwise (fun x y => jsLe x y = true) :=
    List.sorted_mergeSort jsLe_trans jsLe_total l
  have hcmp : (sortByRelevanceAndQuality l).Pairwise (fun x y => jsCmp x y ≤ 0) :=
    hsorted.imp fun h => by simpa [jsLe, decide_eq_true_iff] using h
  refine ⟨List.mergeSort_perm l jsLe, hcmp, ?_, ?_⟩
  · intro x y hxy hsub
    exact List.pair_sublist_mergeSort jsLe_trans jsLe_total
      (by simp [jsLe, decide_eq_true_iff, hxy]) hsub
  · exact hcmp.imp fun h => verified_of_jsCmp_le h

/-- C2 witness: stability applied to a concrete list of two identical records
(equal under all five tiers). -/
theorem C2_sort_by_quality_spec_witness :
    [smpVerified, smpVerified].Sublist
      (sortByRelevanceAndQuality [smpVerified, smpVerified]) :=
  (C2_sort_by_quality_spec [smpVerified, smpVerified]).2.2.1 smpVerified smpVerified
    (by with_unfolding_all decide) (List.Sublist.refl _)

/-- C3: the heuristic fallback evaluator does NOT keep all scores in [0,10]
for arbitrary citation counts: at `citationCount = -5` the credibility score
is NaN (`Math.log10(-4)` propagated through the clamps), contradicting the
specified clamping behaviour. -/
theorem C3_nan_credibility_at_neg_citation :
    smpNegCitationReq.citationCount = some (-5)
    ∧ (getFallbackEvaluation (fun _ => 0) 0 2025 smpNegCitationReq).credibility.score
      = JSNum.nan := by
  with_unfolding_all decide

/-- C6 counterexample: the fallback evaluator is not a function of the
metadata alone — with identical requests, identical `Math.log10` and identical
current year, two legal `Math.random()` draws (0 and 1/2) give different
relevance scores. -/
theorem C6_counterexample_random_relevance :
    (0 : ℚ) ≤ 0 ∧ (0 : ℚ) < 1 ∧ (0 : ℚ) ≤ 1 / 2 ∧ (1 / 2 : ℚ) < 1
    ∧ (getFallbackEvaluation (fun _ => 0) 0 2025 smpEvalReq).relevance.score
      ≠ (getFallbackEvaluation (fun _ => 0) (1 / 2) 2025 smpEvalReq).relevance.score := by
  with_unfolding_all decide

/-- C6 (amended): the fallback evaluator's credibility and impact entries, its
reason strings, advantages and limitations are a function of the metadata and
current year alone (identical across runs), while the relevance score
additionally depends on the `Math.random()` draw `r`, equalling `7 + 2r` for
any legal draw `0 ≤ r < 1`. -/
theorem C6_fallback_deterministic_except_relevance (approx : ℚ → ℚ) (r1 r2 : ℚ)
    (cy : ℤ) (req : EvaluationRequest) (h1 : 0 ≤ r1) (h2 : r1 < 1) :
    (getFallbackEvaluation approx r1 cy req).credibility
      = (getFallbackEvaluation approx r2 cy req).credibility
    ∧ (getFallbackEvaluation approx r1 cy req).impact
      = (getFallbackEvaluation approx r2 cy req).impact
    ∧ (getFallbackEvaluation approx r1 cy req).relevance.reason
      = (getFallbackEvaluation approx r2 cy req).relevance.reason
    ∧ (getFallbackEvaluation approx r1 cy req).advantages
      = (getFallbackEvaluation approx r2 cy req).advantages
    ∧ (getFallbackEvaluation approx r1 cy req).limitations
      = (getFallbackEvaluation approx r2 cy req).limitations
    ∧ (getFallbackEvaluation approx r1 cy req).relevance.score
      = JSNum.fin (7 + r1 * 2) := by
  refine ⟨rfl, rfl, rfl, rfl, rfl, ?_⟩
  simp only [getFallbackEvaluation]
  have h3 : (1 : ℚ) ≤ 7 + r1 * 2 := by linarith
  have h4 : 7 + r1 * 2 ≤ 10 := by linarith
  rw [max_eq_right h3, min_eq_right h4]

/-- C6 witness: the determinism theorem applied at a concrete draw. -/
theorem C6_fallback_deterministic_witness :
    (getFallbackEvaluation (fun _ => 0) 0 2025 smpEvalReq).relevance.score
      = JSNum.fin (7 + 0 * 2) :=
  (C6_fallback_deterministic_except_relevance (fun _ => 0) 0 1 2025 smpEvalReq
    (by with_unfolding_all decide) (by with_unfolding_all decide)).2.2.2.2.2

/-- C5: `deduplicate` is idempotent: for every input sequence of records,
deduplicating twice equals deduplicating once. -/
theorem C5_deduplicate_idempotent (l : List Literature) :
    deduplicate (deduplicate l) = deduplicate l :=
  dedupGo_idem l []

/-- C1 counterexample: two records with the same canonical key where only the
unverified one carries a `citationCount`; `mergeAndDeduplicate` returns a
single merged record whose `citationCount` is absent — the populated value is
lost, in either input order. -/
theorem C1_counterexample_citation_lost :
    generateKey smpVerified = generateKey smpUnverified
    ∧ smpVerified.citationCount = none
    ∧ smpUnverified.citationCount = some 42
    ∧ (mergeAndDeduplicate [smpVerified, smpUnverified]).map Literature.citationCount = [none]
    ∧ (mergeAndDeduplicate [smpUnverified, smpVerified]).map Literature.citationCount = [none] := by
  with_unfolding_all decide

/-- C1 (amended): for two records with the same canonical key,
`mergeAndDeduplicate` returns the single record `mergeLiteratureItems a b`;
an `abstract` present on exactly one of the two is always kept, while a
`citationCount`, `impactFactor` or `supportingPages` present on exactly one is
kept whenever the two records have the same `verified` status (when the
statuses differ those three fields are taken from the verified record alone). -/
theorem C1_merge_field_preservation (a b : Literature)
    (h : generateKey a = generateKey b) :
    mergeAndDeduplicate [a, b] = [mergeLiteratureItems a b]
    ∧ (strT a.abstract = true → strT b.abstract = false →
        (mergeLiteratureItems a b).abstract = a.abstract)
    ∧ (strT a.abstract = false → strT b.abstract = true →
        (mergeLiteratureItems a b).abstract = b.abstract)
    ∧ (a.verified = b.verified →
        (numT a.citationCount = true → numT b.citationCount = false →
          (mergeLiteratureItems a b).citationCount = a.citationCount)
        ∧ (numT a.citationCount = false → numT b.citationCount = true →
          (mergeLiteratureItems a b).citationCount = b.citationCount)
        ∧ (numT a.impactFactor = true → numT b.impactFactor = false →
          (mergeLiteratureItems a b).impactFactor = a.impactFactor)
        ∧ (numT a.impactFactor = false → numT b.impactFactor = true →
          (mergeLiteratureItems a b).impactFactor = b.impactFactor)
        ∧ (numT a.supportingPages = true → numT b.supportingPages = false →
          (mergeLiteratureItems a b).supportingPages = a.supportingPages)
        ∧ (numT a.supportingPages = false → numT b.supportingPages = true →
          (mergeLiteratureItems a b).supportingPages = b.supportingPages)) := by
  refine ⟨mergeAndDeduplicate_pair h, ?_, ?_, ?_⟩
  · intro ha hb
    simp only [mergeLiteratureItems]
    split_ifs <;> simp [jsOrStr, ha, hb]
  · intro ha hb
    simp only [mergeLiteratureItems]
    split_ifs <;> simp [jsOrStr, ha, hb]
  · intro hv
    have h1 : (a.verified && !b.verified) = false := by
      rw [hv]; cases b.verified <;> simp
    have h2 : (b.verified && !a.verified) = false := by
      rw [hv]; cases b.verified <;> simp
    simp only [mergeLiteratureItems, h1, h2, Bool.false_eq_true, if_false]
    refine ⟨?_, ?_, ?_, ?_, ?_, ?_⟩ <;>
      · intro ht hf
        split_ifs <;> simp [jsOrNum, ht, hf]

/-- C1 witness: the amended preservation theorem applied to a concrete
equal-status duplicate pair. -/
theorem C1_merge_field_preservation_witness :
    (mergeLiteratureItems smpDoiRec smpUnverified).citationCount = some 42 :=
  ((C1_merge_field_preservation smpDoiRec smpUnverified
      (by with_unfolding_all decide)).2.2.2
    (by with_unfolding_all decide)).2.1
    (by with_unfolding_all decide) (by with_unfolding_all decide)

/-- C4 counterexample: `smpDoiRec` and `smpNaRec` agree on normalized title,
normalized first author and year — the same publication in the spec's sense —
yet their canonical keys differ and `deduplicate` keeps both. -/
theorem C4_counterexample_doi_vs_title :
    normalizeTitle smpDoiRec.title = normalizeTitle smpNaRec.title
    ∧ normalizedFirstAuthor smpDoiRec = normalizedFirstAuthor smpNaRec
    ∧ smpDoiRec.year = smpNaRec.year
    ∧ generateKey smpDoiRec ≠ generateKey smpNaRec
    ∧ (deduplicate [smpDoiRec, smpNaRec]).length = 2 := by
  with_unfolding_all decide

/-- C4 (amended): two records with usable identifiers that agree up to case
and surrounding whitespace share a canonical key, and two records both lacking
a usable identifier share a canonical key whenever normalized title,
normalized first author and year agree; in either case `deduplicate` on the
pair returns exactly one record. -/
theorem C4_canonical_key_identity (a b : Literature) :
    (usableDoi a = true → usableDoi b = true →
      jsTrim (jsToLower a.doi) = jsTrim (jsToLower b.doi) →
      generateKey a = generateKey b ∧ deduplicate [a, b] = [a])
    ∧ (usableDoi a = false → usableDoi b = false →
      normalizeTitle a.title = normalizeTitle b.title →
      normalizedFirstAuthor a = normalizedFirstAuthor b →
      a.year = b.year →
      generateKey a = generateKey b ∧ deduplicate [a, b] = [a]) := by
  constructor
  · intro ha hb hdoi
    have hk := key_eq_of_doi ha hb hdoi
    exact ⟨hk, deduplicate_pair_same_key hk⟩
  · intro ha hb ht hauth hy
    have hk := key_eq_of_title ha hb ht hauth hy
    exact ⟨hk, deduplicate_pair_same_key hk⟩

/-- C4 witness: the key-identity theorem applied to concrete pairs (equal DOIs
up to case and whitespace, and a degenerate title-keyed pair). -/
theorem C4_canonical_key_identity_witness :
    generateKey smpDoiRec = generateKey smpVerified
    ∧ deduplicate [smpDegenerate, smpDegenerate2] = [smpDegenerate] :=
  ⟨((C4_canonical_key_identity smpDoiRec smpVerified).1
      (by with_unfolding_all decide) (by with_unfolding_all decide)
      (by with_unfolding_all decide)).1,
   ((C4_canonical_key_identity smpDegenerate smpDegenerate2).2
      (by with_unfolding_all decide) (by with_unfolding_all decide)
      (by with_unfolding_all decide) (by with_unfolding_all decide)
      (by with_unfolding_all decide)).2⟩

/-- C7: `evaluateLiterature` yields the heuristic fallback on every failure
mode (missing credential, thrown fetch or timeout, non-2xx response, missing
or empty content, unparseable content), and the per-sentence batch is
isolated: each record appears in the result at its own index with its
non-evaluation fields unchanged, a record whose evaluation throws is kept
verbatim, and a successful one merely gains its evaluation. -/
theorem C7_evaluator_fallback_isolation (parse : String → Option Evaluation)
    (approx : ℚ → ℚ) (rand : ℚ) (cy : ℤ) (apiKey : String)
    (request : EvaluationRequest) :
    (apiKey = "" → ∀ outcome,
      evaluateLiterature parse approx rand cy apiKey outcome request
        = getFallbackEvaluation approx rand cy request)
    ∧ evaluateLiterature parse approx rand cy apiKey .throws request
        = getFallbackEvaluation approx rand cy request
    ∧ (∀ content,
      evaluateLiterature parse approx rand cy apiKey (.response false content) request
        = getFallbackEvaluation approx rand cy request)
    ∧ evaluateLiterature parse approx rand cy apiKey (.response true none) request
        = getFallbackEvaluation approx rand cy request
    ∧ evaluateLiterature parse approx rand cy apiKey (.response true (some "")) request
        = getFallbackEvaluation approx rand cy request
    ∧ (∀ c, parse c = none →
      evaluateLiterature parse approx rand cy apiKey (.response true (some c)) request
        = getFallbackEvaluation approx rand cy request)
    ∧ (∀ (evalOf : Literature → EvalOutcome) (lits : List Literature),
      (evaluateSentenceBatch evalOf lits).length = lits.length
      ∧ (∀ (i : ℕ), ((evaluateSentenceBatch evalOf lits)[i]?).map stripEval
          = (lits[i]?).map stripEval)
      ∧ (∀ (i : ℕ) lit, lits[i]? = some lit → evalOf lit = .throws →
          (evaluateSentenceBatch evalOf lits)[i]? = some lit)
      ∧ (∀ (i : ℕ) lit e, lits[i]? = some lit → evalOf lit = .ok e →
          (evaluateSentenceBatch evalOf lits)[i]?
            = some { lit with evaluation := some e })) := by
  refine ⟨?_, ?_, ?_, ?_, ?_, ?_, ?_⟩
  · intro hk outcome
    simp [evaluateLiterature, hk]
  · by_cases hk : apiKey = "" <;> simp [evaluateLiterature, hk]
  · intro content
    by_cases hk : apiKey = "" <;> simp [evaluateLiterature, hk]
  · by_cases hk : apiKey = "" <;> simp [evaluateLiterature, hk]
  · by_cases hk : apiKey = "" <;> simp [evaluateLiterature, hk]
  · intro c hc
    by_cases hk : apiKey = "" <;> by_cases hce : c = "" <;>
      simp [evaluateLiterature, hk, hce, hc]
  · intro evalOf lits
    refine ⟨List.length_map lits _, ?_, ?_, ?_⟩
    · intro i
      rw [evaluateSentenceBatch, List.getElem?_map]
      cases hi : lits[i]? with
      | none => rfl
      | some lit =>
        cases he : evalOf lit <;> simp [stripEval, he]
    · intro i lit hi he
      rw [evaluateSentenceBatch, List.getElem?_map, hi]
      simp [he]
    · intro i lit e hi he
      rw [evaluateSentenceBatch, List.getElem?_map, hi]
      simp [he]

/-- C7 witness: the fallback clauses and batch isolation applied at concrete
inputs (a missing credential, and a one-record batch whose evaluation
throws). -/
theorem C7_evaluator_fallback_isolation_witness :
    evaluateLiterature (fun _ => none) (fun _ => 0) 0 2025 "" .throws smpEvalReq
      = getFallbackEvaluation (fun _ => 0) 0 2025 smpEvalReq
    ∧ (evaluateSentenceBatch (fun _ => .throws) [smpVerified])[0]? = some smpVerified :=
  ⟨(C7_evaluator_fallback_isolation (fun _ => none) (fun _ => 0) 0 2025 "" smpEvalReq).1
      rfl .throws,
   ((C7_evaluator_fallback_isolation (fun _ => none) (fun _ => 0) 0 2025 "" smpEvalReq).2.2.2.2.2.2
      (fun _ => .throws) [smpVerified]).2.2.1 0 smpVerified rfl rfl⟩

/-- C8 counterexample: a record whose primary provider populated
`citationCount = 0` (present data) has it overwritten by the Crossref
referenced-by count during enhancement. -/
theorem C8_counterexample_zero_citation :
    smpZeroCite.citationCount = some 0
    ∧ (enhanceLiterature (fun y => y) (fun _ => .ok (some smpWork))
        (fun _ => .ok none) smpZeroCite).citationCount = some 7 := by
  with_unfolding_all decide

/-- C8 (amended): the enrichment step never touches id, title, verified,
supportingPages, impactFactor or the attached evaluation, and preserves every
field that is JS-truthy and non-placeholder: a non-empty author list without
the "Unknown Author" placeholder, a non-empty journal other than "Unknown", a
non-empty abstract, a non-empty doi, a non-zero year and a non-zero
citationCount; a record for which every Crossref lookup throws is returned
unchanged.  (A present-but-falsy value — empty string or zero — counts as
missing and may be backfilled.) -/
theorem C8_enhancement_frame (dateYear : ℤ → ℤ)
    (dl bl : String → Except Unit (Option CrossrefWork)) (lit : Literature) :
    ((enhanceLiterature dateYear dl bl lit).id = lit.id
    ∧ (enhanceLiterature dateYear dl bl lit).title = lit.title
    ∧ (enhanceLiterature dateYear dl bl lit).verified = lit.verified
    ∧ (enhanceLiterature dateYear dl bl lit).supportingPages = lit.supportingPages
    ∧ (enhanceLiterature dateYear dl bl lit).impactFactor = lit.impactFactor
    ∧ (enhanceLiterature dateYear dl bl lit).evaluation = lit.evaluation
    ∧ (lit.authors ≠ [] → lit.authors.contains "Unknown Author" = false →
        (enhanceLiterature dateYear dl bl lit).authors = lit.authors)
    ∧ (lit.journal ≠ "" → lit.journal ≠ "Unknown" →
        (enhanceLiterature dateYear dl bl lit).journal = lit.journal)
    ∧ (strT lit.abstract = true →
        (enhanceLiterature dateYear dl bl lit).abstract = lit.abstract)
    ∧ (lit.doi ≠ "" → (enhanceLiterature dateYear dl bl lit).doi = lit.doi)
    ∧ (lit.year ≠ 0 → (enhanceLiterature dateYear dl bl lit).year = lit.year)
    ∧ (numT lit.citationCount = true →
        (enhanceLiterature dateYear dl bl lit).citationCount = lit.citationCount))
    ∧ (dl lit.doi = .error () → bl lit.title = .error () →
        enhanceLiterature dateYear dl bl lit = lit) := by
  constructor
  · rcases enhance_result_cases dateYear dl bl lit with h | ⟨u, w, h⟩
    · rw [h]
      exact ⟨rfl, rfl, rfl, rfl, rfl, rfl, fun _ _ => rfl, fun _ _ => rfl,
        fun _ => rfl, fun _ => rfl, fun _ => rfl, fun _ => rfl⟩
    · rw [h]
      exact enhanceWithWork_preserves dateYear u lit w
  · exact fun hdl hbl => enhance_error_unchanged dateYear dl bl lit hdl hbl

/-- C8 witness: the frame theorem applied to a concrete record during a
successful DOI-path enhancement (populated doi and journal kept). -/
theorem C8_enhancement_frame_witness :
    (enhanceLiterature (fun y => y) (fun _ => .ok (some smpWork))
      (fun _ => .ok none) smpVerified).doi = smpVerified.doi
    ∧ (enhanceLiterature (fun y => y) (fun _ => .ok (some smpWork))
      (fun _ => .ok none) smpVerified).journal = smpVerified.journal :=
  ⟨(C8_enhancement_frame (fun y => y) (fun _ => .ok (some smpWork))
      (fun _ => .ok none) smpVerified).1.2.2.2.2.2.2.2.2.2.1
    (by with_unfolding_all decide),
   (C8_enhancement_frame (fun y => y) (fun _ => .ok (some smpWork))
      (fun _ => .ok none) smpVerified).1.2.2.2.2.2.2.2.1
    (by with_unfolding_all decide) (by with_unfolding_all decide)⟩

/-- C9: the neural-provider adapter's author handling — an absent or blank
author field yields the single placeholder "Unknown Author"; a field without
separators becomes a one-element list of its trimmed value; a field containing
a comma, semicolon or " and " is split into fragments, every kept fragment
being non-empty and not purely numeric; concrete splits demonstrate the three
separators and the digit filter. -/
theorem C9_author_splitting :
    exaAuthors none = ["Unknown Author"]
    ∧ (∀ s, jsTrim s = "" → exaAuthors (some s) = ["Unknown Author"])
    ∧ (∀ s, jsTrim s ≠ "" → hasSep (jsTrim s) = false →
        exaAuthors (some s) = [jsTrim s])
    ∧ (∀ s a, a ∈ exaAuthors (some s) → hasSep (jsTrim s) = true →
        a ≠ "" ∧ isDigitFrag a = false)
    ∧ exaAuthors (some "Alice Smith, Bob Jones; Carol and 42")
      = ["Alice Smith", "Bob Jones", "Carol"]
    ∧ exaAuthors (some "Ann and Ben") = ["Ann", "Ben"] := by
  refine ⟨rfl, ?_, ?_, ?_, by decide, by decide⟩
  · intro s h
    simp [exaAuthors, h]
  · intro s h1 h2
    simp [exaAuthors, h1, h2]
  · intro s a hmem hsep
    have h1 : jsTrim s ≠ "" := by
      intro he
      rw [he] at hsep
      exact absurd hsep (by decide)
    have hform : exaAuthors (some s)
        = ((splitAuthorString (jsTrim s)).map jsTrim).filter keepFrag := by
      simp [exaAuthors, h1, hsep]
    rw [hform, List.mem_filter] at hmem
    have hk := hmem.2
    rw [keepFrag, Bool.and_eq_true] at hk
    constructor
    · intro he
      rw [he] at hk
      exact absurd hk.1 (by decide)
    · have hd2 := hk.2
      cases hd : isDigitFrag a
      · rfl
      · rw [hd] at hd2
        exact absurd hd2 (by decide)

/-- C9 witness: the splitting theorem applied at concrete author fields (a
blank field and a separator-free field). -/
theorem C9_author_splitting_witness :
    exaAuthors (some "  ") = ["Unknown Author"]
    ∧ exaAuthors (some " Solo Author ") = [jsTrim " Solo Author "] :=
  ⟨C9_author_splitting.2.1 "  " (by decide),
   C9_author_splitting.2.2.1 " Solo Author " (by decide) (by decide)⟩

/-- C10: key generation is total on degenerate records — an empty or "N/A"
identifier together with an empty author list yields the title-based key with
the placeholder author component "unknown", and two such records with equal
normalized titles and equal years collapse to a single record. -/
theorem C10_degenerate_key_total (a b : Literature)
    (ha : a.doi = "" ∨ a.doi = "N/A") (haa : a.authors = [])
    (hb : b.doi = "" ∨ b.doi = "N/A") (hba : b.authors = []) :
    generateKey a =
      "title:" ++ normalizeTitle a.title ++ "|author:" ++ "unknown" ++ "|year:" ++
        toString a.year
    ∧ (normalizeTitle a.title = normalizeTitle b.title → a.year = b.year →
        deduplicate [a, b] = [a]) := by
  have hua : usableDoi a = false := by
    rcases ha with h | h <;> simp [usableDoi, h]
  have hub : usableDoi b = false := by
    rcases hb with h | h <;> simp [usableDoi, h]
  have hfa : normalizedFirstAuthor a = "unknown" := by
    simp [normalizedFirstAuthor, haa]
    with_unfolding_all decide
  have hfb : normalizedFirstAuthor b = "unknown" := by
    simp [normalizedFirstAuthor, hba]
    with_unfolding_all decide
  constructor
  · simp [generateKey, hua, hfa]
  · intro ht hy
    exact deduplicate_pair_same_key (key_eq_of_title hua hub ht (hfa.trans hfb.symm) hy)

/-- C10 witness: the degenerate-key theorem applied to two concrete records
with "N/A"/empty identifiers, no authors, matching titles and years. -/
theorem C10_degenerate_key_total_witness :
    generateKey smpDegenerate =
      "title:" ++ normalizeTitle smpDegenerate.title ++ "|author:" ++ "unknown" ++
        "|year:" ++ toString smpDegenerate.year
    ∧ deduplicate [smpDegenerate, smpDegenerate2] = [smpDegenerate] :=
  ⟨(C10_degenerate_key_total smpDegenerate smpDegenerate2
      (Or.inr (by with_unfolding_all decide)) (by with_unfolding_all decide)
      (Or.inl (by with_unfolding_all decide)) (by with_unfolding_all decide)).1,
   (C10_degenerate_key_total smpDegenerate smpDegenerate2
      (Or.inr (by with_unfolding_all decide)) (by with_unfolding_all decide)
      (Or.inl (by with_unfolding_all decide)) (by with_unfolding_all decide)).2
     (by with_unfolding_all decide) (by with_unfolding_all decide)⟩

end LitTrace
